import Mathlib

/-!
Verification of `src/weather.py` (Open-Meteo MCP weather server).

The file is a shallow embedding of the core of `weather.py`:

* `JVal` models the parsed JSON values the code manipulates (Python
  `None` / `bool` / numbers / `str` / `list` / `dict`).  Numbers are
  modelled as integers: every datum the properties below exercise is
  integral, and none of the properties depends on float arithmetic.
  Object fields are association lists with distinct keys (as produced
  by parsing JSON), looked up with `List.lookup`.
* `PyErr` models the class of a raised Python exception; fallible
  Python operations are embedded as `Except PyErr` computations, so an
  escaping exception is an `Except.error` result.
* `units_map`, `code_to_text`, `fmt_alert_item` embed `_units_map`
  (lines 16-32), `_code_to_text` (lines 34-84) and `_fmt_alert_item`
  (lines 99-129).
* `get_forecast_request` / `forecast_lines` / `get_forecast_render` /
  `get_forecast` embed the `get_forecast` tool (lines 134-220), split
  at the single `await _om_get(...)` point: the request shaping
  (lines 152-177) and the response rendering (lines 179-220).  The
  collaborator `_om_get` returns `None` on any transport failure, so a
  fetch outcome is a plain `JVal` with `JVal.null` standing for the
  failure sentinel.
* `get_alerts_request` / `get_alerts_render` / `get_alerts` embed the
  `get_alerts` tool (lines 222-252) in the same way.
-/

/-- A parsed JSON value as handled by the Python code.  `null` doubles
as Python `None`.  Numbers are modelled as integers (see the header). -/
inductive JVal where
  | null
  | bool (b : Bool)
  | int (n : Int)
  | str (s : String)
  | arr (xs : List JVal)
  | obj (fields : List (String × JVal))

/-- The class of a raised Python exception, as far as the embedded code
can distinguish them. -/
inductive PyErr where
  | typeError
  | attributeError
  | indexError
  | keyError
  | valueError
deriving DecidableEq

/-- Python `s.lower()` (character-wise lower-casing, defined over the
character list so that it computes by structural recursion). -/
def strLower (s : String) : String :=
  ⟨s.data.map Char.toLower⟩

/-- Python `s.startswith(pat)`. -/
def strStartsWith (s pat : String) : Bool :=
  List.isPrefixOf pat.data s.data

/-- Whether a string is empty (Python falsiness of a string). -/
def strIsEmpty (s : String) : Bool :=
  s.data.isEmpty

/-- Python `s.strip()`: remove leading and trailing whitespace. -/
def strStrip (s : String) : String :=
  ⟨((s.data.dropWhile Char.isWhitespace).reverse.dropWhile Char.isWhitespace).reverse⟩

/-- Python truthiness (`bool(x)`) for the values of `JVal`:
`None`, `False`, `0`, `""`, `[]` and `{}` are falsy. -/
def pyTruthy : JVal → Bool
  | .null => false
  | .bool b => b
  | .int n => n != 0
  | .str s => !s.data.isEmpty
  | .arr xs => !xs.isEmpty
  | .obj fs => !fs.isEmpty

mutual

/-- Python `repr(x)` for `JVal` (used by `str` on containers).  String
escaping inside `repr` of a string is not modelled. -/
def pyRepr : JVal → String
  | .null => "None"
  | .bool true => "True"
  | .bool false => "False"
  | .int n => toString n
  | .str s => "\x27" ++ s ++ "\x27"
  | .arr xs => "[" ++ String.intercalate ", " (pyReprList xs) ++ "]"
  | .obj fs => "\x7b" ++ String.intercalate ", " (pyReprFields fs) ++ "\x7d"

/-- `repr` of each element of a Python list. -/
def pyReprList : List JVal → List String
  | [] => []
  | v :: vs => pyRepr v :: pyReprList vs

/-- `repr` of each `key: value` entry of a Python dict. -/
def pyReprFields : List (String × JVal) → List String
  | [] => []
  | (k, v) :: fs => ("\x27" ++ k ++ "\x27: " ++ pyRepr v) :: pyReprFields fs

end

/-- Python `str(x)` (the conversion applied by an f-string slot). -/
def pyStr : JVal → String
  | .null => "None"
  | .bool true => "True"
  | .bool false => "False"
  | .int n => toString n
  | .str s => s
  | .arr xs => pyRepr (.arr xs)
  | .obj fs => pyRepr (.obj fs)

/-- Python `a or b` on values (first operand if truthy, else second). -/
def pyOr (a b : JVal) : JVal :=
  if pyTruthy a then a else b

/-- Python `a or b` where evaluating either operand may raise. -/
def pyOrM (a b : Except PyErr JVal) : Except PyErr JVal := do
  let va ← a
  if pyTruthy va then pure va else b

/-- Python `d.get(k, default)`: on a dict, total lookup with default;
on any non-dict value the attribute access `.get` raises
`AttributeError`. -/
def pyGetD (v : JVal) (k : String) (default : JVal) : Except PyErr JVal :=
  match v with
  | .obj fs => .ok ((fs.lookup k).getD default)
  | _ => .error .attributeError

/-- Python `d.get(k)` (default `None`). -/
def pyGet (v : JVal) (k : String) : Except PyErr JVal :=
  pyGetD v k .null

/-- Python `v[i]` for a non-negative index `i`: list and string
indexing raise `IndexError` out of range; subscripting a (string-keyed)
dict with an integer raises `KeyError`; other values raise
`TypeError`. -/
def pyIndexNat (v : JVal) (i : Nat) : Except PyErr JVal :=
  match v with
  | .arr xs =>
    match xs[i]? with
    | some x => .ok x
    | none => .error .indexError
  | .str s =>
    match s.data[i]? with
    | some c => .ok (.str (String.singleton c))
    | none => .error .indexError
  | .obj _ => .error .keyError
  | _ => .error .typeError

/-- Python iteration (`for x in v`): lists yield their elements,
strings their characters, dicts their keys; other values raise
`TypeError`. -/
def pyIter (v : JVal) : Except PyErr (List JVal) :=
  match v with
  | .arr xs => .ok xs
  | .str s => .ok (s.data.map fun c => .str (String.singleton c))
  | .obj fs => .ok (fs.map fun kv => .str kv.1)
  | _ => .error .typeError

/-- Python `int(x)`: identity on ints, `True`/`False` become `1`/`0`,
a string is parsed (raising `ValueError` when unparsable), and every
other value (in particular `None`) raises `TypeError`. -/
def pyToInt : JVal → Except PyErr Int
  | .int n => .ok n
  | .bool b => .ok (if b then 1 else 0)
  | .str s =>
    match (strStrip s).toInt? with
    | some n => .ok n
    | none => .error .valueError
  | _ => .error .typeError

/-- Whether `int(x)` succeeds on `x`. -/
def pyIntConvertible (v : JVal) : Bool :=
  match pyToInt v with
  | .ok _ => true
  | .error _ => false

/-- Substring test on lists of characters. -/
def charsContain (pat : List Char) : List Char → Bool
  | [] => pat.isEmpty
  | c :: rest => List.isPrefixOf pat (c :: rest) || charsContain pat rest

/-- Whether the string `pat` occurs as a contiguous substring of `s`. -/
def strContains (s pat : String) : Bool :=
  charsContain pat.data s.data

/-- The triple of Open-Meteo unit parameters produced by `_units_map`
(lines 22-26 and 28-32 of the source); fields are in source order:
`temperature_unit`, `windspeed_unit`, `precipitation_unit`. -/
structure UnitSet where
  temperature_unit : String
  windspeed_unit : String
  precipitation_unit : String
deriving DecidableEq

/-- Embedding of `_units_map` (lines 16-32): `(units or "metric")`
defaults an empty string, the result is lower-cased (never trimmed) and
compared with `"imperial"`. -/
def units_map (units : String) : UnitSet :=
  let u := strLower (if strIsEmpty units then "metric" else units)
  if u = "imperial" then
    ⟨"fahrenheit", "mph", "inch"⟩
  else
    ⟨"celsius", "kmh", "mm"⟩

/-- The Spanish weather-code table `map_es` (lines 40-69). -/
def map_es : List (Int × String) :=
  [(0, "Despejado"), (1, "Mayormente despejado"), (2, "Parcialmente nublado"),
   (3, "Nublado"), (45, "Niebla"), (48, "Niebla con escarcha"),
   (51, "Llovizna ligera"), (53, "Llovizna moderada"), (55, "Llovizna intensa"),
   (56, "Llovizna congelante ligera"), (57, "Llovizna congelante intensa"),
   (61, "Lluvia ligera"), (63, "Lluvia moderada"), (65, "Lluvia fuerte"),
   (66, "Lluvia helada ligera"), (67, "Lluvia helada intensa"),
   (71, "Nevadas ligeras"), (73, "Nevadas moderadas"), (75, "Nevadas fuertes"),
   (77, "Granos de nieve"), (80, "Chubascos ligeros"), (81, "Chubascos moderados"),
   (82, "Chubascos violentos"), (85, "Chubascos de nieve ligeros"),
   (86, "Chubascos de nieve fuertes"), (95, "Tormenta"),
   (96, "Tormenta con granizo ligero"), (97, "Tormenta con granizo fuerte")]

/-- The English weather-code table `map_en` (lines 70-82). -/
def map_en : List (Int × String) :=
  [(0, "Clear"), (1, "Mostly clear"), (2, "Partly cloudy"), (3, "Overcast"),
   (45, "Fog"), (48, "Depositing rime fog"),
   (51, "Light drizzle"), (53, "Moderate drizzle"), (55, "Dense drizzle"),
   (56, "Light freezing drizzle"), (57, "Freezing drizzle"),
   (61, "Light rain"), (63, "Moderate rain"), (65, "Heavy rain"),
   (66, "Light freezing rain"), (67, "Freezing rain"),
   (71, "Light snow"), (73, "Moderate snow"), (75, "Heavy snow"),
   (77, "Snow grains"),
   (80, "Light showers"), (81, "Moderate showers"), (82, "Violent showers"),
   (85, "Light snow showers"), (86, "Heavy snow showers"),
   (95, "Thunderstorm"), (96, "Thunderstorm with slight hail"), (97, "…with heavy hail")]

/-- Embedding of `_code_to_text` (lines 34-84).  The table is chosen by
the language prefix; the raw value is converted with `int(code)` (which
may raise, e.g. on `None`); a lookup miss falls back to the literal
`f"Código {code}"` in both locales. -/
def code_to_text (code : JVal) (language : String) : Except PyErr String := do
  let table := if strStartsWith (strLower language) "es" then map_es else map_en
  let n ← pyToInt code
  pure ((table.lookup n).getD ("Código " ++ pyStr code))

/-- Embedding of `_fmt_alert_item` (lines 99-129): each logical field
probes its source keys in priority order via Python `or`, then one of
the two locale templates is filled in. -/
def fmt_alert_item (a : JVal) (language : String) : Except PyErr String := do
  let headline := pyOr (← pyGet a "headline") (pyOr (← pyGet a "event") (.str "Alerta"))
  let severity := pyOr (← pyGet a "severity") (pyOr (← pyGet a "level") (.str "desconocida"))
  let description := pyOr (← pyGet a "description")
    (pyOr (← pyGet a "instruction") (pyOr (← pyGet a "text") (.str "Sin descripción")))
  let sender := pyOr (← pyGet a "sender") (pyOr (← pyGet a "provider") (.str ""))
  let onset := pyOr (← pyGet a "onset") (pyOr (← pyGet a "effective") (.str ""))
  let expires := pyOr (← pyGet a "expires") (pyOr (← pyGet a "ends") (.str ""))
  if strStartsWith (strLower language) "es" then
    pure ("⚠️ " ++ pyStr headline ++ "\n" ++
      "Severidad: " ++ pyStr severity ++ "\n" ++
      "Desde: " ++ pyStr (pyOr onset (.str "N/D")) ++ "  Hasta: " ++ pyStr (pyOr expires (.str "N/D")) ++ "\n" ++
      "Fuente: " ++ pyStr (pyOr sender (.str "N/D")) ++ "\n" ++
      "Detalle: " ++ pyStr description ++ "\n")
  else
    pure ("⚠️ " ++ pyStr headline ++ "\n" ++
      "Severity: " ++ pyStr severity ++ "\n" ++
      "From: " ++ pyStr (pyOr onset (.str "N/A")) ++ "  Until: " ++ pyStr (pyOr expires (.str "N/A")) ++ "\n" ++
      "Source: " ++ pyStr (pyOr sender (.str "N/A")) ++ "\n" ++
      "Details: " ++ pyStr description ++ "\n")

/-- The query parameters built by `get_forecast` (lines 158-177).
`α` is the (opaque) type of the coordinate values; fields appear in
source order. -/
structure OMForecastParams (α : Type) where
  latitude : α
  longitude : α
  timezone : String
  forecast_days : Int
  daily : List String
  current : List String
  temperature_unit : String
  windspeed_unit : String
  precipitation_unit : String

/-- Request shaping of `get_forecast` (lines 152-177): the day count is
clamped to `[1, 16]` in two steps, then the parameter mapping is
assembled with the resolved units. -/
def get_forecast_request (α : Type) (latitude longitude : α) (days : Int)
    (units : String) : OMForecastParams α :=
  let d1 := if days < 1 then 1 else days
  let d2 := if d1 > 16 then 16 else d1
  let um := units_map units
  ⟨latitude, longitude, "auto", d2,
    ["temperature_2m_max", "temperature_2m_min", "precipitation_sum",
     "windspeed_10m_max", "weathercode"],
    ["temperature_2m", "windspeed_10m", "weathercode"],
    um.temperature_unit, um.windspeed_unit, um.precipitation_unit⟩

/-- One pass of the day loop body (lines 207-215): the five parallel
reads at index `i`, the code translation, and the f-string for the day
`d`, in source evaluation order.  Any raise is returned as a value so
that the enclosing loop can skip the day. -/
def day_line (um : UnitSet) (language : String)
    (tmax tmin prcp wmax wcode : JVal) (i : Nat) (d : JVal) :
    Except PyErr String := do
  let a ← pyIndexNat tmax i
  let b ← pyIndexNat tmin i
  let c ← pyIndexNat prcp i
  let e ← pyIndexNat wmax i
  let w ← pyIndexNat wcode i
  let sky ← code_to_text w language
  pure (pyStr d ++ ": máx " ++ pyStr a ++ "°, mín " ++ pyStr b ++
    "°, lluvia " ++ pyStr c ++ " " ++ um.precipitation_unit ++
    ", viento máx " ++ pyStr e ++ " " ++ um.windspeed_unit ++ ", " ++ sky)

/-- The day loop of `get_forecast` (lines 206-218): walk the enumerated
dates; a day whose body raises is skipped silently (`except: continue`),
every other day contributes its line. -/
def render_day_lines (um : UnitSet) (language : String)
    (tmax tmin prcp wmax wcode : JVal) : List JVal → Nat → List String
  | [], _ => []
  | d :: rest, i =>
    match day_line um language tmax tmin prcp wmax wcode i d with
    | .ok line => line :: render_day_lines um language tmax tmin prcp wmax wcode rest (i + 1)
    | .error _ => render_day_lines um language tmax tmin prcp wmax wcode rest (i + 1)

/-- Lines 183-218 of `get_forecast`, producing the `out` list of lines:
the optional current-conditions line (not protected by any handler, so
a raise escapes), the unconditional blank separator entry, and the day
lines. -/
def forecast_lines (data : JVal) (um : UnitSet) (language : String) :
    Except PyErr (List String) := do
  let cur ← pyGetD data "current" (.obj [])
  let firstLines ←
    if pyTruthy cur then do
      let tc ← pyGet cur "temperature_2m"
      let wc ← pyGet cur "weathercode"
      let ws ← pyGet cur "windspeed_10m"
      let sky ← code_to_text wc language
      pure ["Ahora: " ++ pyStr tc ++ "° | Viento: " ++ pyStr ws ++ " " ++
        um.windspeed_unit ++ " | Cielo: " ++ sky]
    else
      pure ([] : List String)
  let daily ← pyGetD data "daily" (.obj [])
  let dates := pyOr (← pyGetD daily "time" (.arr [])) (.arr [])
  let tmax := pyOr (← pyGetD daily "temperature_2m_max" (.arr [])) (.arr [])
  let tmin := pyOr (← pyGetD daily "temperature_2m_min" (.arr [])) (.arr [])
  let prcp := pyOr (← pyGetD daily "precipitation_sum" (.arr [])) (.arr [])
  let wmax := pyOr (← pyGetD daily "windspeed_10m_max" (.arr [])) (.arr [])
  let wcode := pyOr (← pyGetD daily "weathercode" (.arr [])) (.arr [])
  let items ← pyIter dates
  pure (firstLines ++ [""] ++ render_day_lines um language tmax tmin prcp wmax wcode items 0)

/-- Response handling of `get_forecast` (lines 179-220): a falsy fetch
result yields the fixed failure message; otherwise the produced lines
are joined with newlines and the result is stripped of surrounding
whitespace. -/
def get_forecast_render (fetched : JVal) (units language : String) :
    Except PyErr String := do
  let um := units_map units
  if !pyTruthy fetched then
    return "No pude obtener el pronóstico de Open-Meteo."
  let out ← forecast_lines fetched um language
  return strStrip (String.intercalate "\n" out)

/-- The whole `get_forecast` tool (lines 134-220), with the transport
collaborator `_om_get` abstracted as the function `fetch` from the
request parameters to the parsed response (`JVal.null` = the `None`
failure sentinel). -/
def get_forecast (α : Type) (fetch : OMForecastParams α → JVal)
    (latitude longitude : α) (days : Int) (units language : String) :
    Except PyErr String :=
  get_forecast_render (fetch (get_forecast_request α latitude longitude days units))
    units language

/-- The query parameters built by `get_alerts` (lines 236-241). -/
structure OMAlertsParams (α : Type) where
  latitude : α
  longitude : α
  timezone : String

/-- Request shaping of `get_alerts` (lines 236-241). -/
def get_alerts_request (α : Type) (latitude longitude : α) : OMAlertsParams α :=
  ⟨latitude, longitude, "auto"⟩

/-- Response handling of `get_alerts` (lines 242-252): falsy fetch
result to the fixed fetch-failure message; then the record list is the
first truthy value of `data.get("warnings") or data.get("events") or
data.get("alerts") or []`; an empty selection yields the fixed
no-active-alerts message; otherwise the formatted records are joined. -/
def get_alerts_render (fetched : JVal) (language : String) :
    Except PyErr String := do
  if !pyTruthy fetched then
    return "No pude obtener alertas (o el servicio no tiene cobertura para esta ubicación)."
  let warnings ← pyOrM (pyGet fetched "warnings")
    (pyOrM (pyGet fetched "events")
      (pyOrM (pyGet fetched "alerts") (pure (.arr []))))
  if !pyTruthy warnings then
    return "Sin alertas activas para estas coordenadas."
  let items ← pyIter warnings
  let formatted ← items.mapM (fun w => fmt_alert_item w language)
  return String.intercalate "\n---\n" formatted

/-- The whole `get_alerts` tool (lines 222-252), with `_om_get`
abstracted as `fetch` just as in `get_forecast`. -/
def get_alerts (α : Type) (fetch : OMAlertsParams α → JVal)
    (latitude longitude : α) (language : String) : Except PyErr String :=
  get_alerts_render (fetch (get_alerts_request α latitude longitude)) language

/-! Helper lemmas about the `Except` monad used by the proofs below. -/

/-- Bind on a success value reduces to the continuation. -/
theorem exbind_ok {α β : Type} (a : α) (f : α → Except PyErr β) :
    (Except.ok a >>= f : Except PyErr β) = f a := rfl

/-- Bind on an error propagates the error. -/
theorem exbind_err {α β : Type} (e : PyErr) (f : α → Except PyErr β) :
    ((Except.error e : Except PyErr α) >>= f) = Except.error e := rfl

/-- A successful bind factors through a successful first stage. -/
theorem bind_eq_ok {α β : Type} {e : Except PyErr α} {f : α → Except PyErr β} {b : β}
    (h : (e >>= f) = .ok b) : ∃ a, e = .ok a ∧ f a = .ok b := by
  cases e with
  | ok a => exact ⟨a, rfl, h⟩
  | error err => rw [exbind_err] at h; exact Except.noConfusion h

/-- C1: evaluating `get_forecast` on a fetched body whose `current`
mapping is non-empty but lacks the `weathercode` field: `wc` is `None`
and `int(None)` inside `_code_to_text` (line 84) raises a `TypeError`
that no handler catches, so the exception escapes the core instead of a
displayable string being returned.  This contradicts the spec (§7:
failures never cross the core boundary as exceptions), so it is a slip
in the code. -/
theorem get_forecast_raises_on_missing_weathercode :
    get_forecast_render
      (JVal.obj [("current", JVal.obj
        [("temperature_2m", JVal.int 20), ("windspeed_10m", JVal.int 5)])])
      "metric" "es" = .error .typeError := rfl

/-- C3 counterexample: on a lookup miss `_code_to_text` returns the
literal `f"Código {code}"` in BOTH locales (line 84); for the English
locale the result `"Código 9999"` contains `"9999"` but does not
contain the word `"Code"`, contrary to the claim. -/
theorem code_fallback_locale_cex :
    code_to_text (JVal.int 9999) "en" = .ok "Código 9999"
      ∧ strContains "Código 9999" "9999" = true
      ∧ strContains "Código 9999" "Code" = false :=
  ⟨rfl, rfl, rfl⟩

/-- C3 amended: for every integer code absent from both tables and
every locale string, the translator totally returns the fallback
`"Código {code}"` (the same Spanish-spelled template in both locales),
embedding the raw numeric code. -/
theorem code_fallback_amended (n : Int) (language : String)
    (hes : map_es.lookup n = none) (hen : map_en.lookup n = none) :
    code_to_text (JVal.int n) language = .ok ("Código " ++ toString n) := by
  unfold code_to_text
  by_cases h : strStartsWith (strLower language) "es" <;>
    simp [h, pyToInt, exbind_ok, hes, hen, pyStr]

/-- Witness for `code_fallback_amended` at code 9999 and locale "en". -/
theorem code_fallback_amended_witness :
    code_to_text (JVal.int 9999) "en" = .ok ("Código " ++ toString (9999 : Int)) :=
  code_fallback_amended 9999 "en" (by decide) (by decide)

/-- C6 counterexample: `_units_map` lower-cases but never trims, so the
string `" imperial"` (surrounding whitespace) resolves to the METRIC
set, while the claim (normalize by lower-casing and trimming) would
make it resolve to the imperial set; the two sets are distinct. -/
theorem units_map_no_trim_cex :
    units_map " imperial" = ⟨"celsius", "kmh", "mm"⟩
      ∧ (⟨"celsius", "kmh", "mm"⟩ : UnitSet) ≠ ⟨"fahrenheit", "mph", "inch"⟩ := by
  exact ⟨rfl, by decide⟩

/-- C6 amended: the resolver is total over all strings and only
lower-cases (no trimming): it returns the imperial set
`{fahrenheit, mph, inch}` exactly when the lower-cased input equals
`"imperial"`, and the metric set `{celsius, kmh, mm}` for every other
string, including the empty string (which first defaults to
`"metric"`). -/
theorem units_map_lowercase_amended (units : String) :
    units_map units =
      if strLower units = "imperial" then (⟨"fahrenheit", "mph", "inch"⟩ : UnitSet)
      else ⟨"celsius", "kmh", "mm"⟩ := by
  by_cases h : units = ""
  · subst h; decide
  · have hne : strIsEmpty units = false := by
      unfold strIsEmpty
      rw [Bool.eq_false_iff]
      intro hcon
      apply h
      cases units with
      | mk l =>
        rw [List.isEmpty_iff] at hcon
        subst hcon
        rfl
    unfold units_map
    rw [hne]
    rfl

/-- C7: the day count is clamped to `[1, 16]` as a request-shaping step
before the fetch: the `forecast_days` parameter is exactly
`min 16 (max 1 days)`, and the whole `get_forecast` operation with
`days = 20` is literally the same function of the transport as with
`days = 16`. -/
theorem get_forecast_clamps_days :
    (∀ (α : Type) (fetch : OMForecastParams α → JVal) (lat lon : α)
        (units language : String),
      get_forecast α fetch lat lon 20 units language
        = get_forecast α fetch lat lon 16 units language)
    ∧ (∀ (α : Type) (lat lon : α) (days : Int) (units : String),
      (get_forecast_request α lat lon days units).forecast_days
        = min 16 (max 1 days)) := by
  constructor
  · intro α fetch lat lon units language
    rfl
  · intro α lat lon days units
    unfold get_forecast_request
    simp only
    split_ifs <;> omega

/-- C9: the Spanish and English weather-code tables cover exactly the
same key set: every code keyed in `map_es` is keyed in `map_en` and
conversely. -/
theorem code_tables_key_set_eq :
    ((map_es.map Prod.fst).all fun k => (map_en.map Prod.fst).contains k) = true
      ∧ ((map_en.map Prod.fst).all fun k => (map_es.map Prod.fst).contains k) = true :=
  ⟨by decide, by decide⟩

/-- C10: a fetch that succeeds but parses to a falsy body (the empty
JSON object) is indistinguishable from a transport failure (`None`):
both operations take the truthiness guard and return their fixed
could-not-fetch message. -/
theorem falsy_body_equals_transport_failure :
    (∀ units language : String,
      get_forecast_render (JVal.obj []) units language
          = get_forecast_render JVal.null units language
        ∧ get_forecast_render (JVal.obj []) units language
          = .ok "No pude obtener el pronóstico de Open-Meteo.")
    ∧ (∀ language : String,
      get_alerts_render (JVal.obj []) language
          = get_alerts_render JVal.null language
        ∧ get_alerts_render (JVal.obj []) language
          = .ok "No pude obtener alertas (o el servicio no tiene cobertura para esta ubicación).") :=
  ⟨fun _ _ => ⟨rfl, rfl⟩, fun _ => ⟨rfl, rfl⟩⟩

/-- Reduction of `pure` in the `Except` monad. -/
theorem expure {α : Type} (a : α) : (pure a : Except PyErr α) = .ok a := rfl

/-- A non-empty dict is truthy. -/
theorem pyTruthy_obj_cons (kv : String × JVal) (fs : List (String × JVal)) :
    pyTruthy (JVal.obj (kv :: fs)) = true := rfl

/-- The empty list value is falsy. -/
theorem pyTruthy_arr_nil : pyTruthy (JVal.arr []) = false := rfl

/-- `None` is falsy. -/
theorem pyTruthy_null : pyTruthy JVal.null = false := rfl

/-- C8 counterexample: with both `"headline"` and `"event"` keys
present, a falsy `"headline"` value (the empty string) falls through to
`"event"`: the rendered block shows `"Tormenta"` taken from `"event"`,
and removing the `"event"` key changes the output, so the headline
field is NOT taken from `"headline"` regardless of the stored values. -/
theorem alert_headline_falsy_cex :
    fmt_alert_item (JVal.obj [("headline", JVal.str ""), ("event", JVal.str "Tormenta")]) "es"
        = .ok "⚠️ Tormenta\nSeveridad: desconocida\nDesde: N/D  Hasta: N/D\nFuente: N/D\nDetalle: Sin descripción\n"
      ∧ fmt_alert_item (JVal.obj [("headline", JVal.str "")]) "es"
        = .ok "⚠️ Alerta\nSeveridad: desconocida\nDesde: N/D  Hasta: N/D\nFuente: N/D\nDetalle: Sin descripción\n"
      ∧ ("⚠️ Tormenta\nSeveridad: desconocida\nDesde: N/D  Hasta: N/D\nFuente: N/D\nDetalle: Sin descripción\n"
          ≠ "⚠️ Alerta\nSeveridad: desconocida\nDesde: N/D  Hasta: N/D\nFuente: N/D\nDetalle: Sin descripción\n") :=
  ⟨rfl, rfl, by decide⟩

/-- C8 amended: when both `"headline"` and `"event"` are present and
the `"headline"` value is truthy (in particular any non-empty string),
the headline slot takes the `"headline"` value and the `"event"` value
is irrelevant: the whole formatted block equals the one produced
without the `"event"` key.  A falsy `"headline"` value instead falls
through to `"event"`, then to the default `"Alerta"`. -/
theorem alert_headline_truthy_wins (hv ev : JVal) (language : String)
    (h : pyTruthy hv = true) :
    fmt_alert_item (JVal.obj [("headline", hv), ("event", ev)]) language
      = fmt_alert_item (JVal.obj [("headline", hv)]) language := by
  unfold fmt_alert_item
  simp [pyGet, pyGetD, pyOr, h, exbind_ok, expure, List.lookup]

/-- Witness for `alert_headline_truthy_wins` on a record carrying both
keys with non-empty values. -/
theorem alert_headline_truthy_wins_witness :
    fmt_alert_item (JVal.obj [("headline", JVal.str "Aviso"), ("event", JVal.str "Tormenta")]) "es"
      = fmt_alert_item (JVal.obj [("headline", JVal.str "Aviso")]) "es" :=
  alert_headline_truthy_wins (JVal.str "Aviso") (JVal.str "Tormenta") "es" (by decide)

/-- C5: `get_alerts` normalizes the top-level collection key.  The
concrete parts: `{"events": []}` and `{"warnings": null}` both yield
the fixed no-active-alerts message; transport failure yields the
distinct could-not-fetch message.  The general parts: whenever all
three keys are absent or falsy the no-active-alerts message is
returned, and a truthy value under an earlier key makes the later keys
irrelevant (selection order warnings, then events, then alerts). -/
theorem get_alerts_key_normalization :
    (∀ language : String,
      get_alerts_render (JVal.obj [("events", JVal.arr [])]) language
        = .ok "Sin alertas activas para estas coordenadas.")
    ∧ (∀ language : String,
      get_alerts_render (JVal.obj [("warnings", JVal.null)]) language
        = .ok "Sin alertas activas para estas coordenadas.")
    ∧ (∀ language : String,
      get_alerts_render JVal.null language
        = .ok "No pude obtener alertas (o el servicio no tiene cobertura para esta ubicación).")
    ∧ ("Sin alertas activas para estas coordenadas."
        ≠ "No pude obtener alertas (o el servicio no tiene cobertura para esta ubicación).")
    ∧ (∀ (fields : List (String × JVal)) (language : String),
        pyTruthy (JVal.obj fields) = true →
        pyTruthy ((fields.lookup "warnings").getD JVal.null) = false →
        pyTruthy ((fields.lookup "events").getD JVal.null) = false →
        pyTruthy ((fields.lookup "alerts").getD JVal.null) = false →
        get_alerts_render (JVal.obj fields) language
          = .ok "Sin alertas activas para estas coordenadas.")
    ∧ (∀ (ws es al : JVal) (language : String), pyTruthy ws = true →
        get_alerts_render (JVal.obj [("warnings", ws), ("events", es), ("alerts", al)]) language
          = get_alerts_render (JVal.obj [("warnings", ws)]) language)
    ∧ (∀ (es al : JVal) (language : String), pyTruthy es = true →
        get_alerts_render (JVal.obj [("warnings", JVal.null), ("events", es), ("alerts", al)]) language
          = get_alerts_render (JVal.obj [("events", es)]) language)
    ∧ (∀ (al : JVal) (language : String), pyTruthy al = true →
        get_alerts_render (JVal.obj [("warnings", JVal.null), ("events", JVal.null), ("alerts", al)]) language
          = get_alerts_render (JVal.obj [("alerts", al)]) language) := by
  refine ⟨fun _ => rfl, fun _ => rfl, fun _ => rfl, by decide, ?_, ?_, ?_, ?_⟩
  · intro fields language htr h1 h2 h3
    unfold get_alerts_render pyOrM
    simp [pyGet, pyGetD, exbind_ok, expure, htr, h1, h2, h3, pyTruthy_arr_nil]
  · intro ws es al language h
    unfold get_alerts_render pyOrM
    simp [pyGet, pyGetD, exbind_ok, expure, h, List.lookup, pyTruthy_obj_cons,
      pyTruthy_arr_nil, pyTruthy_null]
  · intro es al language h
    unfold get_alerts_render pyOrM
    simp [pyGet, pyGetD, exbind_ok, expure, h, List.lookup, pyTruthy_obj_cons,
      pyTruthy_arr_nil, pyTruthy_null]
  · intro al language h
    unfold get_alerts_render pyOrM
    simp [pyGet, pyGetD, exbind_ok, expure, h, List.lookup, pyTruthy_obj_cons,
      pyTruthy_arr_nil, pyTruthy_null]

/-- Witness for `get_alerts_key_normalization`: instantiating the
selection-order part, a truthy `"warnings"` list makes the `"events"`
and `"alerts"` entries irrelevant. -/
theorem get_alerts_key_normalization_witness :
    get_alerts_render (JVal.obj [("warnings", JVal.arr [JVal.obj []]),
        ("events", JVal.str "ignored"), ("alerts", JVal.null)]) "es"
      = get_alerts_render (JVal.obj [("warnings", JVal.arr [JVal.obj []])]) "es" :=
  get_alerts_key_normalization.2.2.2.2.2.1
    (JVal.arr [JVal.obj []]) (JVal.str "ignored") JVal.null "es" (by decide)

/-- C2 counterexample: with `current = {}` (no current line produced)
the blank separator entry appended to the line list is the FIRST line,
so the final `strip` of the joined output removes it: the returned
string is the single day line, with no `"Ahora:"` line but also with no
blank-line separator (it contains no newline at all), contrary to the
claim that the separator survives the trim. -/
theorem forecast_blank_separator_stripped_cex :
    get_forecast_render
        (JVal.obj [("daily", JVal.obj [("time", JVal.arr [JVal.str "2024-01-01"]),
          ("temperature_2m_max", JVal.arr [JVal.int 10]),
          ("temperature_2m_min", JVal.arr [JVal.int 2]),
          ("precipitation_sum", JVal.arr [JVal.int 0]),
          ("windspeed_10m_max", JVal.arr [JVal.int 7]),
          ("weathercode", JVal.arr [JVal.int 0])])])
        "metric" "es"
      = .ok "2024-01-01: máx 10°, mín 2°, lluvia 0 mm, viento máx 7 kmh, Despejado"
    ∧ strContains "2024-01-01: máx 10°, mín 2°, lluvia 0 mm, viento máx 7 kmh, Despejado" "Ahora" = false
    ∧ strContains "2024-01-01: máx 10°, mín 2°, lluvia 0 mm, viento máx 7 kmh, Despejado" "\n" = false :=
  ⟨rfl, by decide, by decide⟩

/-- C2 amended: the blank separator entry is put into the line list
unconditionally (whenever the rendering reaches the per-day section it
is the head of the remaining lines when no current line was produced),
but the final whitespace trim of the joined result deletes it when no
current line precedes it; the separator is present in the returned
string exactly when a current-conditions line was emitted, as in the
concrete output shown in the second conjunct. -/
theorem forecast_blank_separator_amended :
    (∀ (fields : List (String × JVal)) (um : UnitSet) (language : String) (ls : List String),
        pyTruthy ((fields.lookup "current").getD (JVal.obj [])) = false →
        forecast_lines (JVal.obj fields) um language = .ok ls →
        ls.head? = some "")
    ∧ get_forecast_render
        (JVal.obj [("current", JVal.obj [("temperature_2m", JVal.int 21),
            ("windspeed_10m", JVal.int 10), ("weathercode", JVal.int 3)]),
          ("daily", JVal.obj [("time", JVal.arr [JVal.str "2024-01-01"]),
            ("temperature_2m_max", JVal.arr [JVal.int 10]),
            ("temperature_2m_min", JVal.arr [JVal.int 2]),
            ("precipitation_sum", JVal.arr [JVal.int 0]),
            ("windspeed_10m_max", JVal.arr [JVal.int 7]),
            ("weathercode", JVal.arr [JVal.int 0])])])
        "metric" "es"
      = .ok "Ahora: 21° | Viento: 10 kmh | Cielo: Nublado\n\n2024-01-01: máx 10°, mín 2°, lluvia 0 mm, viento máx 7 kmh, Despejado" := by
  constructor
  · intro fields um language ls hcur hok
    unfold forecast_lines at hok
    simp only [pyGetD, exbind_ok, expure] at hok
    rw [hcur] at hok
    simp only [Bool.false_eq_true, if_false, exbind_ok, expure] at hok
    rcases hd : (fields.lookup "daily").getD (JVal.obj []) with _ | b | n | s | xs | dfs <;>
      rw [hd] at hok <;>
      simp only [pyGetD, exbind_ok, exbind_err, expure] at hok
    · exact absurd hok (by simp)
    · exact absurd hok (by simp)
    · exact absurd hok (by simp)
    · exact absurd hok (by simp)
    · exact absurd hok (by simp)
    · cases hit : pyIter (pyOr ((dfs.lookup "time").getD (JVal.arr [])) (JVal.arr [])) with
      | error e =>
        rw [hit] at hok
        simp only [exbind_err] at hok
        exact absurd hok (by simp)
      | ok items =>
        rw [hit] at hok
        simp only [exbind_ok, expure] at hok
        rw [← Except.ok.inj hok]
        rfl
  · rfl

/-- Witness for `forecast_blank_separator_amended`: for a daily-only
response the line list produced by `forecast_lines` starts with the
blank separator entry. -/
theorem forecast_blank_separator_amended_witness :
    (["", "d0: máx 1°, mín 0°, lluvia 0 mm, viento máx 1 kmh, Despejado"] :
        List String).head? = some "" :=
  forecast_blank_separator_amended.1
    [("daily", JVal.obj [("time", JVal.arr [JVal.str "d0"]),
      ("temperature_2m_max", JVal.arr [JVal.int 1]),
      ("temperature_2m_min", JVal.arr [JVal.int 0]),
      ("precipitation_sum", JVal.arr [JVal.int 0]),
      ("windspeed_10m_max", JVal.arr [JVal.int 1]),
      ("weathercode", JVal.arr [JVal.int 0])])]
    ⟨"celsius", "kmh", "mm"⟩ "es"
    ["", "d0: máx 1°, mín 0°, lluvia 0 mm, viento máx 1 kmh, Despejado"]
    (by decide) (by rfl)

/-- C4 counterexample: index 0 is present in all five parallel
sequences (every array has length 1), yet no day line is emitted: the
`weathercode` entry is `null`, `int(None)` raises inside the guarded
body, and the day is skipped.  So the renderer does not emit one line
per index that exists in all five sequences; the skipping also depends
on the code entry being convertible.  The second conjunct evaluates the
whole rendering: the output is the empty string, with no day line. -/
theorem day_lines_skip_cex :
    render_day_lines ⟨"celsius", "kmh", "mm"⟩ "es"
        (JVal.arr [JVal.int 1]) (JVal.arr [JVal.int 0]) (JVal.arr [JVal.int 0])
        (JVal.arr [JVal.int 1]) (JVal.arr [JVal.null]) [JVal.str "d0"] 0 = []
      ∧ get_forecast_render
          (JVal.obj [("daily", JVal.obj [("time", JVal.arr [JVal.str "d0"]),
            ("temperature_2m_max", JVal.arr [JVal.int 1]),
            ("temperature_2m_min", JVal.arr [JVal.int 0]),
            ("precipitation_sum", JVal.arr [JVal.int 0]),
            ("windspeed_10m_max", JVal.arr [JVal.int 1]),
            ("weathercode", JVal.arr [JVal.null])])]) "metric" "es"
        = .ok "" :=
  ⟨rfl, rfl⟩

/-- If index `i` is in range of all five parallel arrays and the code
entries convert with `int`, the day-line body succeeds. -/
theorem day_line_ok_of_lt (um : UnitSet) (language : String)
    (tx tn pr wm wc : List JVal) (i : Nat) (d : JVal)
    (hwc : ∀ v ∈ wc, pyIntConvertible v = true)
    (h : i < min tx.length (min tn.length (min pr.length (min wm.length wc.length)))) :
    ∃ s, day_line um language (.arr tx) (.arr tn) (.arr pr) (.arr wm) (.arr wc) i d
      = .ok s := by
  simp only [Nat.lt_min] at h
  obtain ⟨h1, h2, h3, h4, h5⟩ := h
  obtain ⟨n, hn⟩ : ∃ n, pyToInt wc[i] = .ok n := by
    have hconv := hwc wc[i] (wc.getElem_mem h5)
    revert hconv
    unfold pyIntConvertible
    cases hpt : pyToInt wc[i] with
    | ok m => exact fun _ => ⟨m, rfl⟩
    | error e => intro hcon; cases hcon
  unfold day_line code_to_text
  simp only [pyIndexNat, List.getElem?_eq_getElem h1, List.getElem?_eq_getElem h2,
    List.getElem?_eq_getElem h3, List.getElem?_eq_getElem h4, List.getElem?_eq_getElem h5,
    exbind_ok, expure, hn]
  exact ⟨_, rfl⟩

/-- If index `i` is out of range of one of the five parallel arrays,
the day-line body raises (and the enclosing loop will skip the day). -/
theorem day_line_err_of_ge (um : UnitSet) (language : String)
    (tx tn pr wm wc : List JVal) (i : Nat) (d : JVal)
    (h : ¬ i < min tx.length (min tn.length (min pr.length (min wm.length wc.length)))) :
    ∃ e, day_line um language (.arr tx) (.arr tn) (.arr pr) (.arr wm) (.arr wc) i d
      = .error e := by
  unfold day_line
  by_cases h1 : i < tx.length
  case neg =>
    refine ⟨.indexError, ?_⟩
    simp only [pyIndexNat, List.getElem?_eq_none (Nat.le_of_not_lt h1), exbind_err]
  by_cases h2 : i < tn.length
  case neg =>
    refine ⟨.indexError, ?_⟩
    simp only [pyIndexNat, List.getElem?_eq_getElem h1,
      List.getElem?_eq_none (Nat.le_of_not_lt h2), exbind_ok, exbind_err]
  by_cases h3 : i < pr.length
  case neg =>
    refine ⟨.indexError, ?_⟩
    simp only [pyIndexNat, List.getElem?_eq_getElem h1, List.getElem?_eq_getElem h2,
      List.getElem?_eq_none (Nat.le_of_not_lt h3), exbind_ok, exbind_err]
  by_cases h4 : i < wm.length
  case neg =>
    refine ⟨.indexError, ?_⟩
    simp only [pyIndexNat, List.getElem?_eq_getElem h1, List.getElem?_eq_getElem h2,
      List.getElem?_eq_getElem h3, List.getElem?_eq_none (Nat.le_of_not_lt h4),
      exbind_ok, exbind_err]
  have h5 : wc.length ≤ i := by
    simp only [Nat.lt_min] at h
    omega
  refine ⟨.indexError, ?_⟩
  simp only [pyIndexNat, List.getElem?_eq_getElem h1, List.getElem?_eq_getElem h2,
    List.getElem?_eq_getElem h3, List.getElem?_eq_getElem h4,
    List.getElem?_eq_none h5, exbind_ok, exbind_err]

/-- Length of the day-line list produced from start index `i`, when
every code entry converts: the loop walks the dates and produces a line
exactly while all five parallel arrays stay in range. -/
theorem render_day_lines_len_aux (um : UnitSet) (language : String)
    (tx tn pr wm wc : List JVal)
    (hwc : ∀ v ∈ wc, pyIntConvertible v = true) :
    ∀ (ds : List JVal) (i : Nat),
      (render_day_lines um language (.arr tx) (.arr tn) (.arr pr) (.arr wm) (.arr wc) ds i).length
        = min ds.length
            (min tx.length (min tn.length (min pr.length (min wm.length wc.length))) - i) := by
  intro ds
  induction ds with
  | nil =>
    intro i
    simp [render_day_lines]
  | cons d rest ih =>
    intro i
    by_cases hi : i < min tx.length (min tn.length (min pr.length (min wm.length wc.length)))
    · obtain ⟨s, hs⟩ := day_line_ok_of_lt um language tx tn pr wm wc i d hwc hi
      simp only [render_day_lines, hs, List.length_cons, ih]
      omega
    · obtain ⟨e, he⟩ := day_line_err_of_ge um language tx tn pr wm wc i d hi
      simp only [render_day_lines, he, ih]
      omega

/-- C4 amended: the day loop is a bounded zip.  For arrays of possibly
differing lengths whose code entries all convert with `int`, the number
of emitted day lines is exactly the minimum of the six lengths (the
date list and the five value arrays): one line per index that exists in
all five arrays, every later index skipped silently, never an error and
never a partial line.  (The counterexample shows the convertibility
hypothesis is needed: an in-range `null` code entry is also skipped.)
In particular, with 3 dates and one value array of length 2, exactly 2
day lines are produced. -/
theorem render_day_lines_bounded_zip (um : UnitSet) (language : String)
    (tx tn pr wm wc ds : List JVal)
    (hwc : ∀ v ∈ wc, pyIntConvertible v = true) :
    (render_day_lines um language (.arr tx) (.arr tn) (.arr pr) (.arr wm) (.arr wc) ds 0).length
      = min ds.length (min tx.length (min tn.length (min pr.length (min wm.length wc.length)))) := by
  have h := render_day_lines_len_aux um language tx tn pr wm wc hwc ds 0
  simpa using h

/-- Witness for `render_day_lines_bounded_zip`, instantiating the
scenario of the claim: 3 dates, `temperature_2m_max` of length 2, the
other arrays of length 3 — exactly 2 day lines. -/
theorem render_day_lines_bounded_zip_witness :
    (render_day_lines ⟨"celsius", "kmh", "mm"⟩ "es"
        (JVal.arr [JVal.int 10, JVal.int 20])
        (JVal.arr [JVal.int 0, JVal.int 0, JVal.int 0])
        (JVal.arr [JVal.int 0, JVal.int 0, JVal.int 0])
        (JVal.arr [JVal.int 1, JVal.int 1, JVal.int 1])
        (JVal.arr [JVal.int 0, JVal.int 0, JVal.int 0])
        [JVal.str "d0", JVal.str "d1", JVal.str "d2"] 0).length = 2 := by
  have h := render_day_lines_bounded_zip ⟨"celsius", "kmh", "mm"⟩ "es"
      [JVal.int 10, JVal.int 20]
      [JVal.int 0, JVal.int 0, JVal.int 0]
      [JVal.int 0, JVal.int 0, JVal.int 0]
      [JVal.int 1, JVal.int 1, JVal.int 1]
      [JVal.int 0, JVal.int 0, JVal.int 0]
      [JVal.str "d0", JVal.str "d1", JVal.str "d2"]
      (by decide)
  simpa using h
